import Mathlib

/-! Shallow embedding of the Portis SDK request relay (`src/provider.ts`,
class `PortisProvider`) and proofs about the claims of its specification.

The relay state (pending-request map `requests`, FIFO `queue`, readiness
flag `iframeReady`, session fields `account` / `network`, subscriber list
`events`) is embedded as a Lean structure.  Handlers are embedded as pure
functions from state to state; observable side effects (postMessage
transmissions, completion-callback invocations, iframe show/hide, event
subscriber invocations) are recorded in an ordered trace of `Eff` values,
and a JavaScript exception thrown mid-handler is recorded in an `err`
field (mutations performed before the throwing access persist, later ones
do not, matching JavaScript evaluation order).
-/

namespace Portis

/-- JavaScript-style values as they flow through the relay: the `result`
field of a response, and the `account` / `network` session fields
(TypeScript type `string | null`, but assigned untyped response data at
runtime, so `undefined` and arrays are representable too). -/
inductive JSVal where
  | null
  | undef
  | bool (b : Bool)
  | str (s : String)
  | arr (xs : List JSVal)

/-- JavaScript truthiness of a `JSVal` (`account ? [account] : []`,
line 63 of provider.ts). Objects and arrays are always truthy; `null`,
`undefined`, `false` and the empty string are falsy. -/
def jsvTruthy : JSVal → Bool
  | .null => false
  | .undef => false
  | .bool b => b
  | .str s => s ≠ ""
  | .arr _ => true

/-- JavaScript indexing `v[0]` (used as `evt.data.response.result[0]` on
line 212 of provider.ts): on an array, the first element or `undefined`;
on a string, the first character or `undefined`; on other primitives,
`undefined`; on `null` / `undefined` it throws a TypeError, which this
embedding reports as `none`. -/
def JSVal.index0 : JSVal → Option JSVal
  | .null => none
  | .undef => none
  | .bool _ => some .undef
  | .str s => some (if s = "" then .undef else .str (s.take 1))
  | .arr xs => some (match xs with | [] => .undef | x :: _ => x)

/-- A JSON-RPC request payload, shape `{id, jsonrpc, method, params}`
(spec section 6; constructed by callers and by `sendGenericPayload`). -/
structure Payload where
  id : String
  jsonrpc : String
  method : String
  params : List JSVal

/-- A completion callback, identified opaquely.  `Cb.noop` is the
discard callback `(_) => _` that `send` passes for the
`eth_uninstallFilter` fire-and-forget enqueue (line 75 of provider.ts). -/
inductive Cb where
  | ext (n : Nat)
  | noop

/-- An inbound response object `evt.data.response`: the fields the relay
reads are `id` (response and denial correlation), `result` (response
payload) and `address` (login notification). -/
structure Response where
  id : String
  result : JSVal
  address : String

/-- One queue / pending-map entry `{payload, cb}` (lines 22 and 23 of
provider.ts use the same record shape for both). -/
structure QueueItem where
  payload : Payload
  cb : Cb

/-- The pending-request map `requests: { [id: string]: {payload, cb} }`,
embedded as an association list with JavaScript-object update semantics
(assignment replaces the value of an existing key in place). -/
abbrev ReqMap := List (String × QueueItem)

/-- Lookup `this.requests[id]`; `none` models `undefined`. -/
def lookupReq : ReqMap → String → Option QueueItem
  | [], _ => none
  | (k, v) :: rest, id => if k = id then some v else lookupReq rest id

/-- Assignment `this.requests[id] = item` (line 183 of provider.ts):
replaces the entry of an existing key, otherwise appends. -/
def insertReq : ReqMap → String → QueueItem → ReqMap
  | [], id, v => [(id, v)]
  | (k, w) :: rest, id, v =>
      if k = id then (id, v) :: rest else (k, w) :: insertReq rest id v

/-- The serialized configuration blob `referrerAppOptions`
(lines 41 to 47 of provider.ts). -/
structure ReferrerAppOptions where
  sdkVersion : String
  network : String
  apiKey : Option String
  infuraApiKey : Option String
  providerNodeUrl : Option String

/-- The mutable relay state of a `PortisProvider` instance:
`portisClient` (the configured remote authority origin), the
pending-request map, the FIFO queue, the readiness flag, the session
fields and the subscriber list. -/
structure ProviderState where
  portisClient : String
  requests : ReqMap
  queue : List QueueItem
  iframeReady : Bool
  account : JSVal
  network : JSVal
  events : List (String × Cb)
  referrerAppOptions : ReferrerAppOptions

/-- Observable side effects of the relay, in the order they are issued:
`post` is a `sendPostMessage` transmission to the channel endpoint,
`register` records the pending-map registration of a dispatched request,
`callCb` is a completion-callback invocation `cb(err, resp)`,
`loginEvent` is a subscriber invocation, and the rest are iframe
lifecycle operations. -/
inductive Eff where
  | post (msgType : String) (payload : Payload)
  | register (id : String)
  | callCb (cb : Cb) (err : Option String) (resp : Option Response)
  | createIframe
  | showIframe
  | hideIframe
  | loginEvent (cb : Cb) (provider : String) (address : String)

/-- Result of running one inbound-message handler: the state after the
handler, the trace of observable effects it issued, and `some msg` when
the handler threw a JavaScript exception (after the recorded effects and
state changes). -/
structure StepResult where
  state : ProviderState
  acts : List Eff
  err : Option String

/-- Message type constant for outbound request transmission. -/
def ptHandleRequest : String := "PT_HANDLE_REQUEST"

/-- The denial error message (lines 237 and 239 of provider.ts). -/
def userDeniedMsg : String := "User denied transaction signature."

/-- The error this embedding reports when the source reads a property of
`undefined` (e.g. `this.requests[id].cb` with an unknown id). -/
def typeErrorUndefined : String := "TypeError: cannot read property of undefined"

/-- Recursion of `dequeue`, lines 172 to 186 of provider.ts, expressed over
the queue list: pop the head item, transmit it (`sendPostMessage`),
register it in the pending map, recurse on the rest.  Returns the final
pending map and the effect trace. -/
def dequeueList : List QueueItem → ReqMap → ReqMap × List Eff
  | [], reqs => (reqs, [])
  | item :: rest, reqs =>
      let r := dequeueList rest (insertReq reqs item.payload.id item)
      (r.1, Eff.post ptHandleRequest item.payload :: Eff.register item.payload.id :: r.2)

/-- Source `PortisProvider.dequeue`: drains the whole queue (the source recursion
terminates exactly when the queue is empty), with no readiness check. -/
def dequeue (s : ProviderState) : ProviderState × List Eff :=
  ({ s with queue := [], requests := (dequeueList s.queue s.requests).1 },
   (dequeueList s.queue s.requests).2)

/-- Source `PortisProvider.enqueue` (lines 164 to 170 of provider.ts): append to
the queue tail; drain immediately only when `iframeReady` is set. -/
def enqueue (s : ProviderState) (p : Payload) (cb : Cb) : ProviderState × List Eff :=
  let s1 : ProviderState := { s with queue := s.queue ++ [⟨p, cb⟩] }
  if s1.iframeReady then dequeue s1 else (s1, [])

/-- Source `PortisProvider.sendAsync`: unconditionally enqueues. -/
def sendAsync (s : ProviderState) (p : Payload) (cb : Cb) : ProviderState × List Eff :=
  enqueue s p cb

/-- A sequence of `enqueue` calls, folding state and concatenating the
effect traces in order. -/
def enqueueAll (s : ProviderState) : List (Payload × Cb) → ProviderState × List Eff
  | [] => (s, [])
  | (p, cb) :: rest =>
      let r1 := enqueue s p cb
      let r2 := enqueueAll r1.1 rest
      (r2.1, r1.2 ++ r2.2)

/-- The `PT_RESPONSE` case of `PortisProvider.listen` (lines 207 to 221
of provider.ts): `this.requests[id].cb(null, evt.data.response)` with no
existence guard (an unknown id throws a TypeError on the `.cb` access,
before any mutation); then, when the originating request's method was
`eth_accounts` or `eth_coinbase`, `this.account = response.result[0]`
(indexing throws on a `null` / `undefined` result, after the callback
effect); when it was `net_version`, `this.network = response.result`;
finally `this.dequeue()`.  The entry is never removed from the map.
The two source `if` statements are written as a chain here because their
method strings are mutually exclusive. -/
def handleResponse (s : ProviderState) (resp : Response) : StepResult :=
  match lookupReq s.requests resp.id with
  | none => ⟨s, [], some typeErrorUndefined⟩
  | some entry =>
      if entry.payload.method = "eth_accounts" ∨ entry.payload.method = "eth_coinbase" then
        match JSVal.index0 resp.result with
        | none => ⟨s, [Eff.callCb entry.cb none (some resp)], some typeErrorUndefined⟩
        | some v =>
            ⟨(dequeue { s with account := v }).1,
             Eff.callCb entry.cb none (some resp) :: (dequeue { s with account := v }).2,
             none⟩
      else if entry.payload.method = "net_version" then
        ⟨(dequeue { s with network := resp.result }).1,
         Eff.callCb entry.cb none (some resp) :: (dequeue { s with network := resp.result }).2,
         none⟩
      else
        ⟨(dequeue s).1, Eff.callCb entry.cb none (some resp) :: (dequeue s).2, none⟩

/-- Embedding of `const id = evt.data.response ? evt.data.response.id : null`
(line 234 of provider.ts), collapsed to a string where `""` stands for
the falsy values (`null` when the response object is absent): the
subsequent `if (id)` tests truthiness. -/
def jsIdOf : Option Response → String
  | none => ""
  | some r => r.id

/-- The `PT_USER_DENIED` case of `PortisProvider.listen` (lines 233 to
244 of provider.ts): with a truthy id, `this.requests[id].cb(error)`
(TypeError when the id is unknown; the entry is not removed); otherwise
every currently queued item's callback receives the denial error.
Either branch is followed by `this.dequeue()`. -/
def handleDenied (s : ProviderState) (respOpt : Option Response) : StepResult :=
  if jsIdOf respOpt ≠ "" then
    match lookupReq s.requests (jsIdOf respOpt) with
    | none => ⟨s, [], some typeErrorUndefined⟩
    | some entry =>
        ⟨(dequeue s).1,
         Eff.callCb entry.cb (some userDeniedMsg) none :: (dequeue s).2,
         none⟩
  else
    ⟨(dequeue s).1,
     (s.queue.map fun it => Eff.callCb it.cb (some userDeniedMsg) none) ++ (dequeue s).2,
     none⟩

/-- The data field `evt.data` of an inbound message: a message type tag
and an optional response object. -/
structure MsgData where
  msgType : String
  response : Option Response

/-- An inbound `message` event: declared origin plus data. -/
structure MessageEvent where
  origin : String
  data : MsgData

/-- The `switch (evt.data.msgType)` body of `PortisProvider.listen`
(lines 199 to 255 of provider.ts).  `PT_GREEN_LIGHT` sets the readiness
flag and drains; `PT_RESPONSE` and `PT_USER_DENIED` are the handlers
above (reading `.id` / `.address` of an absent response object throws);
`PT_SHOW_IFRAME` / `PT_HIDE_IFRAME` toggle the iframe; `PT_USER_LOGGED_IN`
invokes the subscribers registered under `login` in registration order;
unrecognized message types fall through the switch as a no-op. -/
def dispatch (s : ProviderState) (d : MsgData) : StepResult :=
  if d.msgType = "PT_GREEN_LIGHT" then
    ⟨(dequeue { s with iframeReady := true }).1,
     (dequeue { s with iframeReady := true }).2, none⟩
  else if d.msgType = "PT_RESPONSE" then
    match d.response with
    | none => ⟨s, [], some typeErrorUndefined⟩
    | some resp => handleResponse s resp
  else if d.msgType = "PT_SHOW_IFRAME" then ⟨s, [Eff.showIframe], none⟩
  else if d.msgType = "PT_HIDE_IFRAME" then ⟨s, [Eff.hideIframe], none⟩
  else if d.msgType = "PT_USER_DENIED" then handleDenied s d.response
  else if d.msgType = "PT_USER_LOGGED_IN" then
    match d.response with
    | none => ⟨s, [], some typeErrorUndefined⟩
    | some resp =>
        ⟨s,
         (s.events.filter fun ev => ev.1 == "login").map fun ev =>
           Eff.loginEvent ev.2 "portis" resp.address,
         none⟩
  else ⟨s, [], none⟩

/-- Source `PortisProvider.listen` (lines 196 to 258 of provider.ts): the sole
trust boundary — the message is dispatched only when
`evt.origin === this.portisClient` (exact string equality); any other
origin is fully ignored. -/
def listen (s : ProviderState) (evt : MessageEvent) : StepResult :=
  if evt.origin = s.portisClient then dispatch s evt.data else ⟨s, [], none⟩

/-- The synchronous return envelope `{id, jsonrpc, result}` of
`PortisProvider.send` (lines 83 to 87 of provider.ts). -/
structure SendResult where
  id : String
  jsonrpc : String
  result : JSVal

/-- Source `PortisProvider.send` (lines 56 to 88 of provider.ts): the
synchronous path.  `eth_accounts` returns `account ? [account] : []`;
`eth_coinbase` returns the account; `net_version` returns the network;
`eth_uninstallFilter` fires `sendAsync(payload, _ => _)` as a side
effect and returns `true`; every other method throws synchronously. -/
def send (s : ProviderState) (p : Payload) :
    Except String (ProviderState × List Eff × SendResult) :=
  if p.method = "eth_accounts" then
    .ok (s, [], ⟨p.id, p.jsonrpc,
      if jsvTruthy s.account then JSVal.arr [s.account] else JSVal.arr []⟩)
  else if p.method = "eth_coinbase" then
    .ok (s, [], ⟨p.id, p.jsonrpc, s.account⟩)
  else if p.method = "net_version" then
    .ok (s, [], ⟨p.id, p.jsonrpc, s.network⟩)
  else if p.method = "eth_uninstallFilter" then
    .ok ((sendAsync s p Cb.noop).1, (sendAsync s p Cb.noop).2,
      ⟨p.id, p.jsonrpc, JSVal.bool true⟩)
  else
    .error ("The Portis Web3 object does not support synchronous methods like "
      ++ p.method ++ " without a callback parameter.")

/-- JavaScript truthiness of an optional string option (`!opts.apiKey`,
`opts.infuraApiKey && opts.providerNodeUrl`): absent and empty are falsy. -/
def optTruthy : Option String → Bool
  | none => false
  | some s => s ≠ ""

/-- The constructor options object (line 32 of provider.ts). -/
structure Opts where
  apiKey : Option String
  network : Option String
  infuraApiKey : Option String
  providerNodeUrl : Option String

/-- The `PortisProvider` constructor (lines 32 to 50 of provider.ts),
parameterized by the `isLocalhost()` environment probe: it throws when
the api key is falsy on a non-local host, then when `infuraApiKey` and
`providerNodeUrl` are both truthy; only the non-throwing path reaches
`this.createIframe()` (recorded as the `Eff.createIframe` effect) and
produces a provider state. -/
def constructProvider (isLocal : Bool) (opts : Opts) :
    List Eff × Except String ProviderState :=
  if ¬ isLocal ∧ ¬ optTruthy opts.apiKey then
    ([], .error "apiKey is missing. Please check your apiKey in the Portis dashboard.")
  else if optTruthy opts.infuraApiKey ∧ optTruthy opts.providerNodeUrl then
    ([], .error "Invalid parameters. infuraApiKey and providerNodeUrl cannot be both provided.")
  else
    ([Eff.createIframe],
     .ok { portisClient := "https://app.portis.io"
         , requests := []
         , queue := []
         , iframeReady := false
         , account := JSVal.null
         , network := JSVal.null
         , events := []
         , referrerAppOptions :=
             { sdkVersion := "1.2.9"
             , network := if optTruthy opts.network then opts.network.getD "" else "mainnet"
             , apiKey := opts.apiKey
             , infuraApiKey := opts.infuraApiKey
             , providerNodeUrl := opts.providerNodeUrl } })

/-- Effects that invoke a caller-supplied callback (completion callbacks
and event-subscriber invocations). -/
def isCbEff : Eff → Bool
  | .callCb _ _ _ => true
  | .loginEvent _ _ _ => true
  | _ => false

/-- Transmission effects (`sendPostMessage`). -/
def isPostEff : Eff → Bool
  | .post _ _ => true
  | _ => false

theorem lookupReq_insertReq (m : ReqMap) (id : String) (v : QueueItem) (k : String) :
    lookupReq (insertReq m id v) k = if id = k then some v else lookupReq m k := by
  induction m with
  | nil =>
      by_cases h : id = k <;> simp [insertReq, lookupReq, h]
  | cons hd tl ih =>
      obtain ⟨k0, w⟩ := hd
      by_cases h1 : k0 = id
      · subst h1
        by_cases h : k0 = k <;> simp [insertReq, lookupReq, h]
      · by_cases h2 : k0 = k
        · subst h2
          have h3 : id ≠ k0 := fun h => h1 h.symm
          simp [insertReq, lookupReq, h1, h3]
        · simp [insertReq, lookupReq, h1, h2, ih]

theorem dequeueList_acts (q : List QueueItem) (reqs : ReqMap) :
    (dequeueList q reqs).2
      = (q.map fun it =>
          [Eff.post ptHandleRequest it.payload, Eff.register it.payload.id]).flatten := by
  induction q generalizing reqs with
  | nil => simp [dequeueList]
  | cons item rest ih => simp [dequeueList, ih]

theorem dequeueList_lookup (q : List QueueItem) (reqs : ReqMap) (k : String)
    (h : ∀ it ∈ q, it.payload.id ≠ k) :
    lookupReq (dequeueList q reqs).1 k = lookupReq reqs k := by
  induction q generalizing reqs with
  | nil => simp [dequeueList]
  | cons item rest ih =>
      have h1 : item.payload.id ≠ k := h item (by simp)
      have h2 : ∀ it ∈ rest, it.payload.id ≠ k := fun it hit => h it (by simp [hit])
      simp [dequeueList, ih _ h2, lookupReq_insertReq, h1]

theorem dequeueList_mem (q : List QueueItem) (reqs : ReqMap) (it : QueueItem)
    (h : it ∈ q) :
    Eff.post ptHandleRequest it.payload ∈ (dequeueList q reqs).2
      ∧ Eff.register it.payload.id ∈ (dequeueList q reqs).2 := by
  induction q generalizing reqs with
  | nil => cases h
  | cons item rest ih =>
      rcases List.mem_cons.mp h with h | h
      · subst h
        constructor <;> simp [dequeueList]
      · have := ih (insertReq reqs item.payload.id item) h
        constructor <;> simp [dequeueList, this.1, this.2]

theorem dequeueList_no_cb (q : List QueueItem) (reqs : ReqMap) :
    ∀ a ∈ (dequeueList q reqs).2, isCbEff a = false := by
  induction q generalizing reqs with
  | nil => simp [dequeueList]
  | cons item rest ih =>
      intro a ha
      simp only [dequeueList, List.mem_cons] at ha
      rcases ha with h | h | h
      · subst h; rfl
      · subst h; rfl
      · exact ih _ a h

theorem canonicalTrace_filter_post (q : List QueueItem) :
    ((q.map fun it =>
        [Eff.post ptHandleRequest it.payload, Eff.register it.payload.id]).flatten).filter
        isPostEff
      = q.map fun it => Eff.post ptHandleRequest it.payload := by
  induction q with
  | nil => simp
  | cons item rest ih => simp [ih, List.filter, isPostEff]

theorem enqueue_notReady (s : ProviderState) (p : Payload) (cb : Cb)
    (h : s.iframeReady = false) :
    enqueue s p cb = ({ s with queue := s.queue ++ [⟨p, cb⟩] }, []) := by
  simp [enqueue, h]

theorem enqueueAll_notReady (s : ProviderState) (ps : List (Payload × Cb))
    (h : s.iframeReady = false) :
    enqueueAll s ps
      = ({ s with queue := s.queue ++ ps.map fun pc => ⟨pc.1, pc.2⟩ }, []) := by
  induction ps generalizing s with
  | nil => simp [enqueueAll]
  | cons pc rest ih =>
      obtain ⟨p, cb⟩ := pc
      have hs1 : ({ s with queue := s.queue ++ [(⟨p, cb⟩ : QueueItem)] } :
          ProviderState).iframeReady = false := h
      simp [enqueueAll, enqueue_notReady _ _ _ h, ih _ hs1]

/-- Sample configuration blob for concrete states. -/
def sampleOptions : ReferrerAppOptions :=
  { sdkVersion := "1.2.9", network := "mainnet", apiKey := some "k"
  , infuraApiKey := none, providerNodeUrl := none }

/-- A freshly constructed provider state: empty pending map, empty queue,
readiness flag unset, null session fields, no subscribers. -/
def baseState : ProviderState :=
  { portisClient := "https://app.portis.io"
  , requests := []
  , queue := []
  , iframeReady := false
  , account := JSVal.null
  , network := JSVal.null
  , events := []
  , referrerAppOptions := sampleOptions }

/-- Sample payloads and queue items. -/
def payX : Payload := ⟨"1", "2.0", "eth_sendTransaction", []⟩

def payY : Payload := ⟨"2", "2.0", "personal_sign", []⟩

def qItemA : QueueItem := ⟨payX, Cb.ext 1⟩

def qItemB : QueueItem := ⟨payY, Cb.ext 2⟩

/-- A state with two requests waiting in the queue, channel not ready. -/
def queuedState : ProviderState := { baseState with queue := [qItemA, qItemB] }

/-- Claim C6: every inbound message whose declared origin is not exactly
string-equal to the configured remote authority origin is fully ignored —
the state is unchanged, no effect (in particular no callback invocation)
is issued and no error is raised, regardless of message type or payload. -/
theorem c6_origin_filter (s : ProviderState) (evt : MessageEvent)
    (h : evt.origin ≠ s.portisClient) :
    listen s evt = ⟨s, [], none⟩ := by
  simp [listen, h]

/-- Witness for C6 at a concrete foreign-origin response message. -/
theorem c6_origin_filter_witness :
    listen baseState ⟨"https://evil.example", ⟨"PT_RESPONSE", some ⟨"1", JSVal.null, ""⟩⟩⟩
      = ⟨baseState, [], none⟩ :=
  c6_origin_filter baseState _ (by decide)

/-- Claim C7: the synchronous `send` path serves exactly the allow-list
`eth_accounts` (current account as a one-element or empty list),
`eth_coinbase` (the account), `net_version` (the network) and
`eth_uninstallFilter` (result `true` plus a fire-and-forget async
enqueue as a side effect); every other method throws synchronously and
is not relayed. -/
theorem c7_sync_allowlist (s : ProviderState) (p : Payload) :
    (p.method = "eth_accounts" →
        send s p = .ok (s, [], ⟨p.id, p.jsonrpc,
          if jsvTruthy s.account then JSVal.arr [s.account] else JSVal.arr []⟩))
    ∧ (p.method = "eth_coinbase" →
        send s p = .ok (s, [], ⟨p.id, p.jsonrpc, s.account⟩))
    ∧ (p.method = "net_version" →
        send s p = .ok (s, [], ⟨p.id, p.jsonrpc, s.network⟩))
    ∧ (p.method = "eth_uninstallFilter" →
        send s p = .ok ((sendAsync s p Cb.noop).1, (sendAsync s p Cb.noop).2,
          ⟨p.id, p.jsonrpc, JSVal.bool true⟩))
    ∧ (p.method ∉ (["eth_accounts", "eth_coinbase", "net_version",
          "eth_uninstallFilter"] : List String) →
        send s p = .error ("The Portis Web3 object does not support synchronous methods like "
          ++ p.method ++ " without a callback parameter.")) := by
  refine ⟨fun h => by simp [send, h], fun h => by simp [send, h],
    fun h => by simp [send, h], fun h => by simp [send, h], fun h => ?_⟩
  simp only [List.mem_cons, List.not_mem_nil, or_false, not_or] at h
  obtain ⟨h1, h2, h3, h4⟩ := h
  simp [send, h1, h2, h3, h4]

/-- Witness for C7: a method outside the allow-list throws synchronously. -/
theorem c7_sync_allowlist_witness :
    send baseState ⟨"7", "2.0", "eth_sign", []⟩
      = .error ("The Portis Web3 object does not support synchronous methods like "
          ++ "eth_sign" ++ " without a callback parameter.") :=
  (c7_sync_allowlist baseState ⟨"7", "2.0", "eth_sign", []⟩).2.2.2.2 (by decide)

/-- Boolean error test for the constructor result. -/
def isErr : Except String ProviderState → Bool
  | .error _ => true
  | .ok _ => false

/-- Claim C8: construction throws exactly when both `infuraApiKey` and
`providerNodeUrl` are provided, or when the api key is missing on a
non-local host; the throw happens before the sandboxed context is
created (the error branches issue no `createIframe` effect), and in all
other cases construction does not throw and creates the context. -/
theorem c8_constructor_errors (isLocal : Bool) (opts : Opts) :
    (isErr (constructProvider isLocal opts).2 = true
      ↔ ((optTruthy opts.infuraApiKey = true ∧ optTruthy opts.providerNodeUrl = true)
          ∨ (isLocal = false ∧ optTruthy opts.apiKey = false)))
    ∧ (isErr (constructProvider isLocal opts).2 = true
        → (constructProvider isLocal opts).1 = [])
    ∧ (isErr (constructProvider isLocal opts).2 = false
        → (constructProvider isLocal opts).1 = [Eff.createIframe]) := by
  cases hl : isLocal <;> cases ha : optTruthy opts.apiKey <;>
    cases hi : optTruthy opts.infuraApiKey <;> cases hn : optTruthy opts.providerNodeUrl <;>
    simp [constructProvider, hl, ha, hi, hn, isErr]

/-- Witness for C8: providing both node options makes construction
throw. -/
theorem c8_constructor_errors_witness :
    isErr (constructProvider true ⟨some "k", none, some "infura", some "https://node"⟩).2
      = true :=
  (c8_constructor_errors true ⟨some "k", none, some "infura", some "https://node"⟩).1.mpr
    (Or.inl ⟨by decide, by decide⟩)

/-- A response whose id has no pending entry in `baseState`. -/
def respUnknown : Response := ⟨"1", JSVal.arr [], ""⟩

/-- The corresponding inbound event, sent from the trusted origin. -/
def evtRespUnknown : MessageEvent :=
  ⟨"https://app.portis.io", ⟨"PT_RESPONSE", some respUnknown⟩⟩

/-- Claim C1 counterexample: a `PT_RESPONSE` whose id is not a key of
the pending-request map is NOT silently ignored — the unguarded
`this.requests[id].cb` access throws a TypeError, so processing ends in
an error rather than the claimed defensive no-op (the state is left
unchanged and no callback runs, but the handler crashes). -/
theorem c1_counterexample :
    lookupReq baseState.requests "1" = none
    ∧ listen baseState evtRespUnknown = ⟨baseState, [], some typeErrorUndefined⟩
    ∧ (listen baseState evtRespUnknown).err ≠ none := by
  refine ⟨rfl, rfl, ?_⟩
  intro hx
  exact Option.noConfusion hx

/-- Claim C1 (amended): processing a trusted-origin response whose id is
not in the pending map mutates no state and invokes no callback, but it
is not silent — the handler throws (a TypeError from reading `.cb` of
`undefined`) instead of ignoring the message. -/
theorem c1_amended (s : ProviderState) (resp : Response)
    (h : lookupReq s.requests resp.id = none) :
    listen s ⟨s.portisClient, ⟨"PT_RESPONSE", some resp⟩⟩
      = ⟨s, [], some typeErrorUndefined⟩ := by
  simp [listen, dispatch, handleResponse, h]

/-- Witness for the amended C1 at a concrete state and response. -/
theorem c1_amended_witness :
    listen baseState ⟨baseState.portisClient, ⟨"PT_RESPONSE", some respUnknown⟩⟩
      = ⟨baseState, [], some typeErrorUndefined⟩ :=
  c1_amended baseState respUnknown rfl

/-- Claim C4: a denial message carrying no id invokes the completion
callback of every item currently in the queue with the denial error, and
the queue is empty after the message has been processed (the trailing
`dequeue` drains it). -/
theorem c4_broadcast_denial (s : ProviderState) (respOpt : Option Response)
    (h : jsIdOf respOpt = "") :
    (listen s ⟨s.portisClient, ⟨"PT_USER_DENIED", respOpt⟩⟩).err = none
    ∧ (∀ it ∈ s.queue,
        Eff.callCb it.cb (some userDeniedMsg) none
          ∈ (listen s ⟨s.portisClient, ⟨"PT_USER_DENIED", respOpt⟩⟩).acts)
    ∧ (listen s ⟨s.portisClient, ⟨"PT_USER_DENIED", respOpt⟩⟩).state.queue = [] := by
  have hl : listen s ⟨s.portisClient, ⟨"PT_USER_DENIED", respOpt⟩⟩
      = handleDenied s respOpt := by
    simp [listen, dispatch]
  rw [hl]
  unfold handleDenied
  rw [if_neg (by simp [h])]
  exact ⟨rfl, fun it hit => List.mem_append_left _ (List.mem_map_of_mem _ hit), rfl⟩

/-- Witness for C4: a broadcast denial against a two-item queue. -/
theorem c4_broadcast_denial_witness :
    (listen queuedState ⟨queuedState.portisClient, ⟨"PT_USER_DENIED", none⟩⟩).err = none
    ∧ Eff.callCb qItemA.cb (some userDeniedMsg) none
        ∈ (listen queuedState ⟨queuedState.portisClient, ⟨"PT_USER_DENIED", none⟩⟩).acts
    ∧ (listen queuedState ⟨queuedState.portisClient, ⟨"PT_USER_DENIED", none⟩⟩).state.queue
        = [] := by
  have h := c4_broadcast_denial queuedState none rfl
  exact ⟨h.1, h.2.1 qItemA (by simp [queuedState]), h.2.2⟩

/-- Reduction of `listen` on a ready-signal from the trusted origin. -/
theorem listen_greenLight (s : ProviderState) (o : String) (h : o = s.portisClient) :
    listen s ⟨o, ⟨"PT_GREEN_LIGHT", none⟩⟩
      = ⟨(dequeue { s with iframeReady := true }).1,
         (dequeue { s with iframeReady := true }).2, none⟩ := by
  simp [listen, dispatch, h]

/-- Mapping the per-item trace blocks over queue items built from pairs. -/
theorem mapItems_trace (ps : List (Payload × Cb)) :
    ((ps.map fun pc => (⟨pc.1, pc.2⟩ : QueueItem)).map fun it =>
        [Eff.post ptHandleRequest it.payload, Eff.register it.payload.id])
      = ps.map fun pc => [Eff.post ptHandleRequest pc.1, Eff.register pc.1.id] := by
  induction ps with
  | nil => rfl
  | cons pc rest ih => simp [ih]

/-- Mapping the transmission effect over queue items built from pairs. -/
theorem mapItems_post (ps : List (Payload × Cb)) :
    ((ps.map fun pc => (⟨pc.1, pc.2⟩ : QueueItem)).map fun it =>
        Eff.post ptHandleRequest it.payload)
      = ps.map fun pc => Eff.post ptHandleRequest pc.1 := by
  induction ps with
  | nil => rfl
  | cons pc rest ih => simp [ih]

/-- Claim C5: requests enqueued while the channel is not ready produce
no transmission; once the readiness signal arrives, the whole backlog is
transmitted in exactly the enqueue order, each item being sent and
registered in the pending map before the next one is processed (the
effect trace is the per-item `[post, register]` blocks in order), and
the queue is empty afterwards with the readiness flag set. -/
theorem c5_fifo (s : ProviderState) (ps : List (Payload × Cb))
    (h1 : s.iframeReady = false) (h2 : s.queue = []) :
    (enqueueAll s ps).2 = []
    ∧ (listen (enqueueAll s ps).1 ⟨s.portisClient, ⟨"PT_GREEN_LIGHT", none⟩⟩).err = none
    ∧ (listen (enqueueAll s ps).1 ⟨s.portisClient, ⟨"PT_GREEN_LIGHT", none⟩⟩).acts
        = (ps.map fun pc =>
            [Eff.post ptHandleRequest pc.1, Eff.register pc.1.id]).flatten
    ∧ ((listen (enqueueAll s ps).1
          ⟨s.portisClient, ⟨"PT_GREEN_LIGHT", none⟩⟩).acts.filter isPostEff)
        = ps.map (fun pc => Eff.post ptHandleRequest pc.1)
    ∧ (listen (enqueueAll s ps).1 ⟨s.portisClient, ⟨"PT_GREEN_LIGHT", none⟩⟩).state.queue
        = []
    ∧ (listen (enqueueAll s ps).1
          ⟨s.portisClient, ⟨"PT_GREEN_LIGHT", none⟩⟩).state.iframeReady = true := by
  rw [enqueueAll_notReady s ps h1]
  rw [listen_greenLight ({ s with queue := s.queue ++ ps.map fun pc => (⟨pc.1, pc.2⟩ : QueueItem) })
    s.portisClient rfl]
  refine ⟨rfl, rfl, ?_, ?_, rfl, rfl⟩
  · simp only [dequeue]
    rw [h2, List.nil_append, dequeueList_acts, mapItems_trace]
  · simp only [dequeue]
    rw [h2, List.nil_append, dequeueList_acts, canonicalTrace_filter_post, mapItems_post]

/-- Witness for C5 with two concrete requests enqueued before readiness. -/
theorem c5_fifo_witness :
    (enqueueAll baseState [(payX, Cb.ext 1), (payY, Cb.ext 2)]).2 = []
    ∧ (listen (enqueueAll baseState [(payX, Cb.ext 1), (payY, Cb.ext 2)]).1
        ⟨baseState.portisClient, ⟨"PT_GREEN_LIGHT", none⟩⟩).acts
      = (([(payX, Cb.ext 1), (payY, Cb.ext 2)] : List (Payload × Cb)).map fun pc =>
          [Eff.post ptHandleRequest pc.1, Eff.register pc.1.id]).flatten
    ∧ (listen (enqueueAll baseState [(payX, Cb.ext 1), (payY, Cb.ext 2)]).1
        ⟨baseState.portisClient, ⟨"PT_GREEN_LIGHT", none⟩⟩).state.queue = [] := by
  have h := c5_fifo baseState [(payX, Cb.ext 1), (payY, Cb.ext 2)] rfl rfl
  exact ⟨h.1, h.2.2.1, h.2.2.2.2.1⟩

/-- A pending `personal_sign` request under id `"1"`. -/
def pendingEntry : QueueItem := ⟨⟨"1", "2.0", "personal_sign", []⟩, Cb.ext 5⟩

/-- A state with one in-flight request and an empty queue. -/
def pendingState : ProviderState :=
  { baseState with requests := [("1", pendingEntry)], iframeReady := true }

/-- A success response for id `"1"`. -/
def respOne : Response := ⟨"1", JSVal.arr [JSVal.str "0xabc"], ""⟩

/-- The corresponding trusted-origin response event. -/
def evtRespOne : MessageEvent :=
  ⟨"https://app.portis.io", ⟨"PT_RESPONSE", some respOne⟩⟩

/-- Claim C2 counterexample: resolving a pending request does NOT remove
its entry from the pending map — the post-state equals the pre-state, the
entry is still present, and delivering the very same response a second
time invokes the completion callback again, so the callback is not
invoked at most once over the session. -/
theorem c2_counterexample :
    listen pendingState evtRespOne
      = ⟨pendingState, [Eff.callCb (Cb.ext 5) none (some respOne)], none⟩
    ∧ lookupReq (listen pendingState evtRespOne).state.requests "1" = some pendingEntry
    ∧ (listen (listen pendingState evtRespOne).state evtRespOne).acts
        = [Eff.callCb (Cb.ext 5) none (some respOne)] :=
  ⟨rfl, rfl, rfl⟩

/-- Claim C2 (amended): the pending map holds at most one entry per id
(it is a map), but an entry is never removed on resolution: after a
response for a pending id is processed, the entry is still in the map
unchanged (provided no queued item re-registers the same id), and each
matching response message invokes the completion callback once — hence
duplicate responses invoke it more than once per session. -/
theorem c2_amended (s : ProviderState) (resp : Response) (e : QueueItem)
    (h : lookupReq s.requests resp.id = some e)
    (hq : ∀ it ∈ s.queue, it.payload.id ≠ resp.id) :
    Eff.callCb e.cb none (some resp)
        ∈ (listen s ⟨s.portisClient, ⟨"PT_RESPONSE", some resp⟩⟩).acts
    ∧ lookupReq (listen s ⟨s.portisClient, ⟨"PT_RESPONSE", some resp⟩⟩).state.requests
        resp.id = some e := by
  have hl : listen s ⟨s.portisClient, ⟨"PT_RESPONSE", some resp⟩⟩ = handleResponse s resp := by
    simp [listen, dispatch]
  rw [hl]
  unfold handleResponse
  simp only [h]
  by_cases hm : e.payload.method = "eth_accounts" ∨ e.payload.method = "eth_coinbase"
  · rw [if_pos hm]
    cases hi : JSVal.index0 resp.result with
    | none =>
        simp only [hi]
        exact ⟨List.mem_singleton.mpr rfl, h⟩
    | some v =>
        simp only [hi]
        exact ⟨List.mem_cons_self _ _, (dequeueList_lookup s.queue s.requests resp.id hq).trans h⟩
  · rw [if_neg hm]
    by_cases hm2 : e.payload.method = "net_version"
    · rw [if_pos hm2]
      exact ⟨List.mem_cons_self _ _, (dequeueList_lookup s.queue s.requests resp.id hq).trans h⟩
    · rw [if_neg hm2]
      exact ⟨List.mem_cons_self _ _, (dequeueList_lookup s.queue s.requests resp.id hq).trans h⟩

/-- Witness for the amended C2 at a concrete pending request. -/
theorem c2_amended_witness :
    Eff.callCb (Cb.ext 5) none (some respOne)
        ∈ (listen pendingState ⟨pendingState.portisClient, ⟨"PT_RESPONSE", some respOne⟩⟩).acts
    ∧ lookupReq (listen pendingState
          ⟨pendingState.portisClient, ⟨"PT_RESPONSE", some respOne⟩⟩).state.requests "1"
        = some pendingEntry :=
  c2_amended pendingState respOne pendingEntry rfl
    (fun it hit => absurd hit (by intro hx; exact List.not_mem_nil it hx))

/-- A state with one pending entry and one still-queued request. -/
def c3State : ProviderState :=
  { baseState with requests := [("1", pendingEntry)], queue := [qItemB] }

/-- A denial response carrying the specific id `"1"`. -/
def denialOne : Response := ⟨"1", JSVal.null, ""⟩

/-- The corresponding trusted-origin denial event. -/
def evtDenialOne : MessageEvent :=
  ⟨"https://app.portis.io", ⟨"PT_USER_DENIED", some denialOne⟩⟩

/-- Claim C3 counterexample: a denial carrying a specific id does resolve
that pending entry with the denial error, but the queued-but-undispatched
item is NOT left untouched — the trailing `dequeue` pops it, transmits it
to the channel endpoint and registers it in the pending map, emptying the
queue even though the readiness signal was never received. -/
theorem c3_counterexample :
    listen c3State evtDenialOne
      = ⟨{ c3State with queue := [], requests := [("1", pendingEntry), ("2", qItemB)] },
         [Eff.callCb (Cb.ext 5) (some userDeniedMsg) none,
          Eff.post ptHandleRequest payY, Eff.register "2"], none⟩
    ∧ (listen c3State evtDenialOne).state.queue = []
    ∧ Eff.post ptHandleRequest payY ∈ (listen c3State evtDenialOne).acts := by
  refine ⟨rfl, rfl, ?_⟩
  exact List.mem_cons_of_mem _ (List.mem_cons_self _ _)

/-- Claim C3 (amended): a denial carrying a specific pending id invokes
exactly that entry's completion callback with the denial error (the only
callback effect in the trace — the rest is the drain's transmissions and
registrations), leaves every pending entry not shadowed by a queued item
unchanged in the map, but then drains the queue: the handler ends with an
empty queue, having transmitted and registered every queued item. -/
theorem c3_amended (s : ProviderState) (resp : Response) (e : QueueItem)
    (hid : resp.id ≠ "")
    (h : lookupReq s.requests resp.id = some e) :
    (listen s ⟨s.portisClient, ⟨"PT_USER_DENIED", some resp⟩⟩).err = none
    ∧ (listen s ⟨s.portisClient, ⟨"PT_USER_DENIED", some resp⟩⟩).acts
        = Eff.callCb e.cb (some userDeniedMsg) none :: (dequeueList s.queue s.requests).2
    ∧ (∀ a ∈ (dequeueList s.queue s.requests).2, isCbEff a = false)
    ∧ (listen s ⟨s.portisClient, ⟨"PT_USER_DENIED", some resp⟩⟩).state.queue = []
    ∧ (∀ k, (∀ it ∈ s.queue, it.payload.id ≠ k) →
        lookupReq (listen s ⟨s.portisClient, ⟨"PT_USER_DENIED", some resp⟩⟩).state.requests k
          = lookupReq s.requests k) := by
  have hl : listen s ⟨s.portisClient, ⟨"PT_USER_DENIED", some resp⟩⟩
      = handleDenied s (some resp) := by
    simp [listen, dispatch]
  rw [hl]
  unfold handleDenied
  simp only [jsIdOf]
  rw [if_pos hid]
  rw [h]
  exact ⟨rfl, rfl, dequeueList_no_cb s.queue s.requests, rfl,
    fun k hk => dequeueList_lookup s.queue s.requests k hk⟩

/-- Witness for the amended C3: the concrete denial against `c3State`. -/
theorem c3_amended_witness :
    (listen c3State evtDenialOne).err = none
    ∧ (listen c3State evtDenialOne).state.queue = [] := by
  have h := c3_amended c3State denialOne pendingEntry (by decide) rfl
  exact ⟨h.1, h.2.2.2.1⟩

/-- A pending account-query request under id `"1"`. -/
def accEntry : QueueItem := ⟨⟨"1", "2.0", "eth_accounts", []⟩, Cb.ext 3⟩

/-- A state whose only pending request is the account query. -/
def c9State : ProviderState := { baseState with requests := [("1", accEntry)] }

/-- A denial for id `"1"` that even carries a result value. -/
def denialWithResult : Response := ⟨"1", JSVal.arr [JSVal.str "0xnew"], ""⟩

/-- The corresponding trusted-origin denial event. -/
def evtDenialWithResult : MessageEvent :=
  ⟨"https://app.portis.io", ⟨"PT_USER_DENIED", some denialWithResult⟩⟩

/-- Claim C9 counterexample: a denial resolution of a pending
account-query does NOT update the session account — the state is left
unchanged, so the account differs from the response's first value; only
success responses (`PT_RESPONSE`) update the session fields. -/
theorem c9_counterexample :
    listen c9State evtDenialWithResult
      = ⟨c9State, [Eff.callCb (Cb.ext 3) (some userDeniedMsg) none], none⟩
    ∧ JSVal.index0 denialWithResult.result = some (JSVal.str "0xnew")
    ∧ (listen c9State evtDenialWithResult).state.account ≠ JSVal.str "0xnew" := by
  refine ⟨rfl, rfl, fun hx => ?_⟩
  have hx' : JSVal.null = JSVal.str "0xnew" := hx
  exact JSVal.noConfusion hx'

/-- Claim C9 (amended): after a SUCCESS resolution of a pending
account-query (`eth_accounts` / `eth_coinbase`) the session account
equals the first element of the response result, and after a success
resolution of a network-query (`net_version`) the session network equals
the result itself, the other session field being unchanged; a denial
resolution leaves both session fields unchanged. -/
theorem c9_amended (s : ProviderState) (resp : Response) (e : QueueItem)
    (h : lookupReq s.requests resp.id = some e) :
    ((e.payload.method = "eth_accounts" ∨ e.payload.method = "eth_coinbase") →
        ∀ v, JSVal.index0 resp.result = some v →
          (listen s ⟨s.portisClient, ⟨"PT_RESPONSE", some resp⟩⟩).state.account = v
          ∧ (listen s ⟨s.portisClient, ⟨"PT_RESPONSE", some resp⟩⟩).state.network
              = s.network)
    ∧ (e.payload.method = "net_version" →
        (listen s ⟨s.portisClient, ⟨"PT_RESPONSE", some resp⟩⟩).state.network = resp.result
        ∧ (listen s ⟨s.portisClient, ⟨"PT_RESPONSE", some resp⟩⟩).state.account = s.account)
    ∧ (resp.id ≠ "" →
        (listen s ⟨s.portisClient, ⟨"PT_USER_DENIED", some resp⟩⟩).state.account = s.account
        ∧ (listen s ⟨s.portisClient, ⟨"PT_USER_DENIED", some resp⟩⟩).state.network
            = s.network) := by
  have hl : listen s ⟨s.portisClient, ⟨"PT_RESPONSE", some resp⟩⟩ = handleResponse s resp := by
    simp [listen, dispatch]
  have hd : listen s ⟨s.portisClient, ⟨"PT_USER_DENIED", some resp⟩⟩
      = handleDenied s (some resp) := by
    simp [listen, dispatch]
  refine ⟨fun hm v hv => ?_, fun hm2 => ?_, fun hid => ?_⟩
  · rw [hl]
    unfold handleResponse
    simp only [h]
    rw [if_pos hm]
    simp only [hv]
    exact ⟨rfl, rfl⟩
  · rw [hl]
    unfold handleResponse
    simp only [h]
    have hm : ¬ (e.payload.method = "eth_accounts" ∨ e.payload.method = "eth_coinbase") := by
      rw [hm2]; decide
    rw [if_neg hm, if_pos hm2]
    exact ⟨rfl, rfl⟩
  · rw [hd]
    unfold handleDenied
    simp only [jsIdOf]
    rw [if_pos hid]
    rw [h]
    exact ⟨rfl, rfl⟩

/-- Witness for the amended C9: a success `eth_accounts` response sets
the account to the first result element; the denial leaves it unchanged. -/
theorem c9_amended_witness :
    (listen c9State ⟨c9State.portisClient, ⟨"PT_RESPONSE", some respOne⟩⟩).state.account
      = JSVal.str "0xabc"
    ∧ (listen c9State
          ⟨c9State.portisClient, ⟨"PT_USER_DENIED", some respOne⟩⟩).state.account
        = c9State.account := by
  have h := c9_amended c9State respOne accEntry rfl
  exact ⟨(h.1 (Or.inl rfl) (JSVal.str "0xabc") rfl).1, (h.2.2 (by decide)).1⟩

/-- Claim C10: the drain step performs no readiness check — `dequeue`
behaves identically whatever the readiness flag holds; processing a
response for a pending id (whose session update does not throw) or a
broadcast denial pops, transmits and registers the entire current queue
even when the readiness signal was never received; only `enqueue` gates
draining on the readiness flag. -/
theorem c10_drain_unconditional (s : ProviderState) (b : Bool) (resp : Response)
    (e : QueueItem) (p : Payload) (cb : Cb) :
    ((dequeue { s with iframeReady := b }).1.queue = []
      ∧ (dequeue { s with iframeReady := b }).2 = (dequeue s).2
      ∧ (dequeue { s with iframeReady := b }).1.requests = (dequeue s).1.requests)
    ∧ (lookupReq s.requests resp.id = some e →
        ((e.payload.method = "eth_accounts" ∨ e.payload.method = "eth_coinbase") →
            (JSVal.index0 resp.result).isSome) →
        (listen s ⟨s.portisClient, ⟨"PT_RESPONSE", some resp⟩⟩).err = none
        ∧ (listen s ⟨s.portisClient, ⟨"PT_RESPONSE", some resp⟩⟩).state.queue = []
        ∧ (∀ it ∈ s.queue,
            Eff.post ptHandleRequest it.payload
                ∈ (listen s ⟨s.portisClient, ⟨"PT_RESPONSE", some resp⟩⟩).acts
            ∧ Eff.register it.payload.id
                ∈ (listen s ⟨s.portisClient, ⟨"PT_RESPONSE", some resp⟩⟩).acts))
    ∧ ((listen s ⟨s.portisClient, ⟨"PT_USER_DENIED", none⟩⟩).state.queue = []
        ∧ (∀ it ∈ s.queue,
            Eff.post ptHandleRequest it.payload
              ∈ (listen s ⟨s.portisClient, ⟨"PT_USER_DENIED", none⟩⟩).acts))
    ∧ (s.iframeReady = false →
        enqueue s p cb = ({ s with queue := s.queue ++ [⟨p, cb⟩] }, [])) := by
  have hl : listen s ⟨s.portisClient, ⟨"PT_RESPONSE", some resp⟩⟩ = handleResponse s resp := by
    simp [listen, dispatch]
  have hd : listen s ⟨s.portisClient, ⟨"PT_USER_DENIED", none⟩⟩ = handleDenied s none := by
    simp [listen, dispatch]
  refine ⟨⟨rfl, rfl, rfl⟩, fun h hidx => ?_, ⟨?_, ?_⟩, fun hnr => enqueue_notReady s p cb hnr⟩
  · rw [hl]
    unfold handleResponse
    simp only [h]
    by_cases hm : e.payload.method = "eth_accounts" ∨ e.payload.method = "eth_coinbase"
    · obtain ⟨v, hv⟩ := Option.isSome_iff_exists.mp (hidx hm)
      rw [if_pos hm]
      simp only [hv]
      exact ⟨by trivial, by trivial, fun it hit =>
        ⟨List.mem_cons_of_mem _ (dequeueList_mem s.queue s.requests it hit).1,
         List.mem_cons_of_mem _ (dequeueList_mem s.queue s.requests it hit).2⟩⟩
    · rw [if_neg hm]
      by_cases hm2 : e.payload.method = "net_version"
      · rw [if_pos hm2]
        exact ⟨by trivial, by trivial, fun it hit =>
          ⟨List.mem_cons_of_mem _ (dequeueList_mem s.queue s.requests it hit).1,
           List.mem_cons_of_mem _ (dequeueList_mem s.queue s.requests it hit).2⟩⟩
      · rw [if_neg hm2]
        exact ⟨by trivial, by trivial, fun it hit =>
          ⟨List.mem_cons_of_mem _ (dequeueList_mem s.queue s.requests it hit).1,
           List.mem_cons_of_mem _ (dequeueList_mem s.queue s.requests it hit).2⟩⟩
  · rw [hd]
    unfold handleDenied
    simp only [jsIdOf]
    rw [if_neg (fun hx => hx rfl)]
    rfl
  · rw [hd]
    unfold handleDenied
    simp only [jsIdOf]
    rw [if_neg (fun hx => hx rfl)]
    exact fun it hit =>
      List.mem_append_right _ (dequeueList_mem s.queue s.requests it hit).1

/-- Witness for C10: the response-drain and enqueue-gate conjuncts at
concrete inputs. -/
theorem c10_drain_unconditional_witness :
    (listen pendingState
        ⟨pendingState.portisClient, ⟨"PT_RESPONSE", some respOne⟩⟩).err = none
    ∧ enqueue baseState payX Cb.noop
        = ({ baseState with queue := baseState.queue ++ [⟨payX, Cb.noop⟩] }, []) := by
  have h := c10_drain_unconditional pendingState true respOne pendingEntry payX Cb.noop
  have h2 := c10_drain_unconditional baseState true respOne pendingEntry payX Cb.noop
  exact ⟨(h.2.1 rfl (fun _ => rfl)).1, h2.2.2.2 rfl⟩

end Portis

